import Mathlib

/-!
Verification of the persistence layer in `database.py` (OSINT bot data store).

The module is a thin data-access layer over an embedded SQL database.  We give
a shallow embedding: each table is a list of row records inside a `DB` state,
and each Python function becomes a Lean function on `DB`.  Ambient time
(`datetime.now()`, `CURRENT_TIMESTAMP`, today's date string) is passed as an
explicit `String` parameter.  Statements that can raise an engine error return
`Except SqlError`; all other statements are total.  `json.dumps` is modelled by
`Json.dumps` on a structured value type.
-/

/-- Engine-native errors surfaced by the storage layer: a primary-key
uniqueness violation (sqlite `IntegrityError`), and the Python driver's
check that the number of supplied bindings matches the number of `?`
placeholders in the prepared statement (`ProgrammingError`). -/
inductive SqlError where
  | uniqueViolation : SqlError
  | bindingMismatch : SqlError
deriving DecidableEq

/-- Structured values accepted by `json.dumps` (payload of a lookup result). -/
inductive Json where
  | null : Json
  | bool (b : Bool) : Json
  | num (n : Int) : Json
  | str (s : String) : Json
  | arr (items : List Json) : Json
  | obj (fields : List (String × Json)) : Json

/-- Serialization of a structured value to text, mirroring `json.dumps`
with its default separators (string escaping is elided: the claims under
study never depend on it). -/
def Json.dumps : Json → String
  | .null => "null"
  | .bool true => "true"
  | .bool false => "false"
  | .num n => toString n
  | .str s => "\"" ++ s ++ "\""
  | .arr items =>
      "[" ++ String.intercalate ", " (items.attach.map (fun x => Json.dumps x.1)) ++ "]"
  | .obj fields =>
      "\x7b" ++
        String.intercalate ", "
          (fields.attach.map (fun x => "\"" ++ x.1.1 ++ "\": " ++ Json.dumps x.1.2)) ++
      "\x7d"
decreasing_by
  · simp_wf
    have := List.sizeOf_lt_of_mem x.2
    omega
  · simp_wf
    have h1 := List.sizeOf_lt_of_mem x.2
    have h2 : sizeOf x.1.2 < sizeOf x.1 := by
      obtain ⟨a, b⟩ := x.1
      simp
      try omega
    omega

/-- Row of `users(user_id PK, first_seen, last_seen, total_lookups DEFAULT 0,
username, first_name, last_name)`. -/
structure UserRow where
  user_id : Int
  first_seen : String
  last_seen : String
  total_lookups : Int
  username : Option String
  first_name : Option String
  last_name : Option String
deriving DecidableEq

/-- Row of `admins(user_id PK, added_by, added_on DEFAULT now)`. -/
structure AdminRow where
  user_id : Int
  added_by : Int
  added_on : String
deriving DecidableEq

/-- Row of `banned(user_id PK, reason, banned_by, banned_on DEFAULT now)`. -/
structure BanRow where
  user_id : Int
  reason : String
  banned_by : Int
  banned_on : String
deriving DecidableEq

/-- Row of `lookups(id PK AUTOINCREMENT, user_id, command, query, result,
timestamp DEFAULT now)`. -/
structure LookupRow where
  id : Nat
  user_id : Int
  command : String
  query : String
  result : String
  timestamp : String
deriving DecidableEq

/-- Row of `daily_stats(date, command, count DEFAULT 0, PRIMARY KEY(date, command))`. -/
structure DailyRow where
  date : String
  command : String
  count : Int
deriving DecidableEq

/-- Whole database state: the five tables plus the AUTOINCREMENT counter
backing `lookups.id`. -/
structure DB where
  users : List UserRow
  admins : List AdminRow
  banned : List BanRow
  lookups : List LookupRow
  daily_stats : List DailyRow
  next_id : Nat
deriving DecidableEq

/-- `init_db()`: all tables empty (CREATE TABLE IF NOT EXISTS on a fresh file). -/
def init_db : DB := ⟨[], [], [], [], [], 1⟩

/-- The `DO UPDATE SET last_seen=excluded.last_seen, username=excluded.username,
first_name=excluded.first_name, last_name=excluded.last_name` clause of
`update_user`, applied to the conflicting row. -/
def upd_names (now : String) (user_id : Int)
    (username first_name last_name : Option String) (u : UserRow) : UserRow :=
  if u.user_id == user_id then
    { u with last_seen := now, username := username,
             first_name := first_name, last_name := last_name }
  else u

/-- `update_user(user_id, username, first_name, last_name)`:
`INSERT ... ON CONFLICT(user_id) DO UPDATE SET last_seen, username,
first_name, last_name = excluded...`.  On conflict the update rewrites
exactly those four columns of the conflicting row; otherwise a fresh row is
inserted with `first_seen = last_seen = now` and `total_lookups` at its
column default 0. -/
def update_user (now : String) (user_id : Int)
    (username first_name last_name : Option String) (db : DB) : DB :=
  if db.users.any (fun u => u.user_id == user_id) then
    { db with users := db.users.map (upd_names now user_id username first_name last_name) }
  else
    { db with users := db.users ++
        [⟨user_id, now, now, 0, username, first_name, last_name⟩] }

/-- `get_user(user_id)`: `SELECT * FROM users WHERE user_id = ?`, `fetchone`. -/
def get_user (db : DB) (user_id : Int) : Option UserRow :=
  db.users.find? (fun u => u.user_id == user_id)

/-- `is_admin(user_id)`: `SELECT 1 FROM admins WHERE user_id = ?` is non-empty. -/
def is_admin (db : DB) (user_id : Int) : Bool :=
  (db.admins.find? (fun a => a.user_id == user_id)).isSome

/-- `add_admin(user_id, added_by)`: `INSERT OR IGNORE INTO admins`; the row is
appended only when no row with this primary key exists, otherwise the
statement is ignored. -/
def add_admin (now : String) (user_id added_by : Int) (db : DB) : DB :=
  if db.admins.any (fun a => a.user_id == user_id) then db
  else { db with admins := db.admins ++ [⟨user_id, added_by, now⟩] }

/-- `remove_admin(user_id)`: `DELETE FROM admins WHERE user_id = ?`. -/
def remove_admin (user_id : Int) (db : DB) : DB :=
  { db with admins := db.admins.filter (fun a => a.user_id != user_id) }

/-- `is_banned(user_id)`: `SELECT 1 FROM banned WHERE user_id = ?` is non-empty. -/
def is_banned (db : DB) (user_id : Int) : Bool :=
  (db.banned.find? (fun r => r.user_id == user_id)).isSome

/-- `ban_user(user_id, reason, banned_by)`: plain `INSERT INTO banned`; a row
with the same primary key raises the engine's uniqueness violation, and the
failed statement leaves the database unchanged (the implicit transaction
never commits). -/
def ban_user (now : String) (user_id : Int) (reason : String) (banned_by : Int)
    (db : DB) : Except SqlError DB :=
  if db.banned.any (fun r => r.user_id == user_id) then
    .error .uniqueViolation
  else
    .ok { db with banned := db.banned ++ [⟨user_id, reason, banned_by, now⟩] }

/-- `unban_user(user_id)`: `DELETE FROM banned WHERE user_id = ?`. -/
def unban_user (user_id : Int) (db : DB) : DB :=
  { db with banned := db.banned.filter (fun r => r.user_id != user_id) }

/-- The `DO UPDATE SET count = count + 1` clause of the `daily_stats` upsert,
applied to the conflicting row. -/
def inc_count (date command : String) (r : DailyRow) : DailyRow :=
  if r.date == date && r.command == command then { r with count := r.count + 1 }
  else r

/-- The `INSERT INTO daily_stats (date, command, count) VALUES (?, ?, 1)
ON CONFLICT(date, command) DO UPDATE SET count = count + 1` statement of
`save_lookup`. -/
def bump_daily (date command : String) (rows : List DailyRow) : List DailyRow :=
  if rows.any (fun r => r.date == date && r.command == command) then
    rows.map (inc_count date command)
  else
    rows ++ [⟨date, command, 1⟩]

/-- The `UPDATE users SET total_lookups = total_lookups + 1 WHERE user_id = ?`
statement of `save_lookup`, applied to a row. -/
def inc_total (user_id : Int) (u : UserRow) : UserRow :=
  if u.user_id == user_id then { u with total_lookups := u.total_lookups + 1 }
  else u

/-- `save_lookup(user_id, command, query, result)`: three statements in one
call — append to `lookups` with `json.dumps(result)`, `UPDATE users SET
total_lookups = total_lookups + 1 WHERE user_id = ?`, and the `daily_stats`
upsert for `(today, command)`. -/
def save_lookup (today ts : String) (user_id : Int) (command query : String)
    (result : Json) (db : DB) : DB :=
  { db with
    lookups := db.lookups ++
      [⟨db.next_id, user_id, command, query, Json.dumps result, ts⟩],
    next_id := db.next_id + 1,
    users := db.users.map (inc_total user_id),
    daily_stats := bump_daily today command db.daily_stats }

/-- `get_leaderboard(limit)`: `SELECT user_id, total_lookups FROM users ORDER
BY total_lookups DESC LIMIT ?`.  The engine's sort is modelled as a stable
merge sort on the table, descending on `total_lookups` (the statement names
no tie-break column). -/
def get_leaderboard (limit : Nat) (db : DB) : List (Int × Int) :=
  ((db.users.mergeSort (fun a b => decide (b.total_lookups ≤ a.total_lookups))).take
      limit).map (fun u => (u.user_id, u.total_lookups))

/-- Aggregate record returned by `get_stats`. -/
structure Stats where
  total_users : Int
  total_lookups : Int
  total_admins : Int
  total_banned : Int
deriving DecidableEq

/-- SQL `SUM(column)` over a table: `NULL` when the table has no rows. -/
def sql_sum (l : List Int) : Option Int :=
  if l.isEmpty then none else some l.sum

/-- Python's `value or 0` applied to a fetched scalar: `None` and `0` are
falsy and give `0`, anything else passes through. -/
def py_or_zero : Option Int → Int
  | none => 0
  | some v => if v == 0 then 0 else v

/-- `get_stats()`: four scalar queries — `COUNT(*)` over `users`, `admins`
and `banned`, and `SUM(total_lookups)` over `users` guarded by `or 0`. -/
def get_stats (db : DB) : Stats :=
  { total_users := (db.users.length : Int),
    total_lookups := py_or_zero (sql_sum (db.users.map (fun u => u.total_lookups))),
    total_admins := (db.admins.length : Int),
    total_banned := (db.banned.length : Int) }

/-- The literal SQL text of `get_daily_stats` (the `?` sits inside the
double-quoted token `"-? days"`). -/
def get_daily_stats_sql : String :=
  "SELECT date, command, count FROM daily_stats WHERE date >= date(\"now\", \"-? days\") ORDER BY date DESC"

/-- The statement is executed with the single-element parameter tuple `(days,)`. -/
def get_daily_stats_params : Nat := 1

/-- SQL placeholder counting as the sqlite tokenizer sees it: a `?` inside a
single- or double-quoted token is part of that token, not a parameter. -/
def count_placeholders_aux : List Char → Option Char → Nat
  | [], _ => 0
  | c :: cs, some q => count_placeholders_aux cs (if c == q then none else some q)
  | c :: cs, none =>
      if c.toNat == 39 || c.toNat == 34 then count_placeholders_aux cs (some c)
      else (if c == '?' then 1 else 0) + count_placeholders_aux cs none

/-- Number of `?` parameters of a prepared statement. -/
def count_placeholders (s : String) : Nat :=
  count_placeholders_aux s.data none

/-- `get_daily_stats(days)`: the Python sqlite driver compares the number of
supplied bindings (one, the tuple `(days,)`) with the statement's placeholder
count before executing, and raises `ProgrammingError` on a mismatch.  The
`ok` branch is what would run had the counts agreed: the modifier `-? days`
is not a valid date modifier, so `date("now", "-? days")` is `NULL` and the
comparison `date >= NULL` selects no rows. -/
def get_daily_stats (days : Nat) (db : DB) : Except SqlError (List DailyRow) :=
  if count_placeholders get_daily_stats_sql == get_daily_stats_params then
    .ok []
  else
    .error .bindingMismatch

/-- Rows of `lookups` carrying a given `user_id`. -/
def count_for (l : List LookupRow) (uid : Int) : Nat :=
  (l.filter (fun r => r.user_id == uid)).length

/-- `SELECT COUNT(*) FROM lookups WHERE user_id = ?`. -/
def count_lookups (db : DB) (uid : Int) : Nat :=
  count_for db.lookups uid

/-- A `users` row with this `user_id` exists. -/
def user_in (db : DB) (uid : Int) : Bool :=
  db.users.any (fun u => u.user_id == uid)

/-- Count held by the `daily_stats` row keyed `(date, command)`, 0 if absent. -/
def daily_count_for (rows : List DailyRow) (date command : String) : Int :=
  match rows.find? (fun r => r.date == date && r.command == command) with
  | some r => r.count
  | none => 0

/-- Count held by the `daily_stats` row keyed `(date, command)`, 0 if absent. -/
def daily_count (db : DB) (date command : String) : Int :=
  daily_count_for db.daily_stats date command

/-- `SELECT COUNT(*) FROM admins WHERE user_id = ?`. -/
def count_admin_rows (db : DB) (uid : Int) : Nat :=
  (db.admins.filter (fun a => a.user_id == uid)).length

/-- One mutating call of the store, with ambient time made explicit. -/
inductive Op where
  | upsertUser (now : String) (user_id : Int)
      (username first_name last_name : Option String) : Op
  | saveLookup (today ts : String) (user_id : Int)
      (command query : String) (result : Json) : Op
  | addAdmin (now : String) (user_id added_by : Int) : Op
  | removeAdmin (user_id : Int) : Op
  | banUser (now : String) (user_id : Int) (reason : String) (banned_by : Int) : Op
  | unbanUser (user_id : Int) : Op

/-- Execute one call.  A failed `ban_user` (uniqueness violation) leaves the
database unchanged: the error propagates before the transaction commits. -/
def applyOp (db : DB) : Op → DB
  | .upsertUser now uid un fn ln => update_user now uid un fn ln db
  | .saveLookup today ts uid cmd q res => save_lookup today ts uid cmd q res db
  | .addAdmin now uid b => add_admin now uid b db
  | .removeAdmin uid => remove_admin uid db
  | .banUser now uid r b =>
      match ban_user now uid r b db with
      | .ok db2 => db2
      | .error _ => db
  | .unbanUser uid => unban_user uid db

/-- State after running a sequence of calls against the freshly initialized
database. -/
def run (ops : List Op) : DB := ops.foldl applyOp init_db

/-- The call upserts this `user_id`. -/
def Op.upsertsUser (uid : Int) : Op → Bool
  | .upsertUser _ u _ _ _ => u == uid
  | _ => false

/-- When the call is a `save_lookup`, its `user_id` was already upserted in
`seen`; any other call passes. -/
def Op.guardOk (seen : List Op) : Op → Bool
  | .saveLookup _ _ uid _ _ _ => seen.any (Op.upsertsUser uid)
  | _ => true

/-- Every `save_lookup` in the trace is preceded by an upsert of its
`user_id`; `seen` accumulates the already-examined prefix. -/
def lookups_preceded_by_upsert : List Op → List Op → Bool
  | _, [] => true
  | seen, op :: rest =>
      Op.guardOk seen op && lookups_preceded_by_upsert (seen ++ [op]) rest

/-- Invariant tying the users' counters to the audit log: every user row's
`total_lookups` is the number of `lookups` rows carrying its `user_id`, and
a `user_id` with no user row has no `lookups` rows either. -/
def lookups_counted (db : DB) : Prop :=
  (∀ u ∈ db.users, u.total_lookups = (count_lookups db u.user_id : Int)) ∧
  (∀ uid : Int, user_in db uid = false → count_lookups db uid = 0)

-- ===== generic list helpers =====

/-- Mapping a function that does not change the predicate's verdict commutes
with `find?`. -/
theorem find?_map_pred {α : Type} (f : α → α) (p : α → Bool)
    (hp : ∀ a, p (f a) = p a) (l : List α) :
    (l.map f).find? p = (l.find? p).map f := by
  have hpf : (p ∘ f) = p := funext hp
  rw [List.find?_map, hpf]

/-- If moreover `f` fixes every element the predicate accepts, `find?` is
unchanged by the map. -/
theorem find?_map_fix {α : Type} (f : α → α) (p : α → Bool)
    (hp : ∀ a, p (f a) = p a) (hfix : ∀ a, p a = true → f a = a) (l : List α) :
    (l.map f).find? p = l.find? p := by
  rw [find?_map_pred f p hp l]
  cases hfind : l.find? p with
  | none => rfl
  | some v => simpa using hfix v (List.find?_some hfind)

/-- Mapping a verdict-preserving function does not change `any`. -/
theorem any_map_pred {α : Type} (f : α → α) (p : α → Bool)
    (hp : ∀ a, p (f a) = p a) (l : List α) :
    (l.map f).any p = l.any p := by
  induction l with
  | nil => rfl
  | cons a t ih => simp [List.any_cons, hp, ih]

/-- A map that fixes every element of the list is the identity. -/
theorem map_id_of_fix {α : Type} (f : α → α) (l : List α)
    (h : ∀ a ∈ l, f a = a) : l.map f = l := by
  induction l with
  | nil => rfl
  | cons a t ih =>
      simp only [List.map_cons, h a (List.mem_cons_self a t),
        ih (fun b hb => h b (List.mem_cons_of_mem a hb))]

-- ===== row-update functions preserve keys =====

/-- The upsert's SET clause never touches `user_id`. -/
theorem upd_names_user_id (now : String) (uid : Int) (un fn ln : Option String)
    (u : UserRow) : (upd_names now uid un fn ln u).user_id = u.user_id := by
  unfold upd_names; split <;> rfl

/-- The upsert's SET clause never touches `total_lookups`. -/
theorem upd_names_total (now : String) (uid : Int) (un fn ln : Option String)
    (u : UserRow) : (upd_names now uid un fn ln u).total_lookups = u.total_lookups := by
  unfold upd_names; split <;> rfl

/-- The upsert's SET clause never touches `first_seen`. -/
theorem upd_names_first_seen (now : String) (uid : Int) (un fn ln : Option String)
    (u : UserRow) : (upd_names now uid un fn ln u).first_seen = u.first_seen := by
  unfold upd_names; split <;> rfl

/-- The lookup counter bump never touches `user_id`. -/
theorem inc_total_user_id (uid : Int) (u : UserRow) :
    (inc_total uid u).user_id = u.user_id := by
  unfold inc_total; split <;> rfl

/-- `any` over a mapped users list is unchanged when the map preserves
`user_id`. -/
theorem any_user_id_map (f : UserRow → UserRow)
    (hid : ∀ u, (f u).user_id = u.user_id) (l : List UserRow) (w : Int) :
    (l.map f).any (fun u => u.user_id == w) = l.any (fun u => u.user_id == w) :=
  any_map_pred f _ (fun a => by rw [hid]) l

/-- The two branches of `applyOp` on a ban never change `users`. -/
theorem applyOp_ban_users (db : DB) (now : String) (u : Int) (r : String) (b : Int) :
    (applyOp db (Op.banUser now u r b)).users = db.users := by
  simp only [applyOp, ban_user]
  split
  · rename_i db2 heq
    split at heq
    · cases heq
    · cases heq
      rfl
  · rfl

/-- The two branches of `applyOp` on a ban never change `lookups`. -/
theorem applyOp_ban_lookups (db : DB) (now : String) (u : Int) (r : String) (b : Int) :
    (applyOp db (Op.banUser now u r b)).lookups = db.lookups := by
  simp only [applyOp, ban_user]
  split
  · rename_i db2 heq
    split at heq
    · cases heq
    · cases heq
      rfl
  · rfl

-- ===== preservation of user presence =====

/-- Upserting `uid` makes its user row present. -/
theorem user_in_upsert (now : String) (uid : Int) (un fn ln : Option String)
    (db : DB) : user_in (update_user now uid un fn ln db) uid = true := by
  unfold update_user
  split
  · next hc =>
      simp only [user_in]
      rw [any_user_id_map _ (upd_names_user_id now uid un fn ln)]
      exact hc
  · simp [user_in, List.any_append]

/-- No operation removes an existing user row. -/
theorem user_in_applyOp (db : DB) (op : Op) (uid : Int)
    (h : user_in db uid = true) : user_in (applyOp db op) uid = true := by
  cases op with
  | upsertUser now u un fn ln =>
      simp only [applyOp]
      unfold update_user
      split
      · simp only [user_in]
        rw [any_user_id_map _ (upd_names_user_id now u un fn ln)]
        exact h
      · simp only [user_in] at h ⊢
        simp [List.any_append, h]
  | saveLookup today ts u cmd q res =>
      simp only [applyOp, save_lookup, user_in]
      rw [any_user_id_map _ (inc_total_user_id u)]
      exact h
  | addAdmin now u b =>
      simp only [applyOp]
      unfold add_admin
      split <;> exact h
  | removeAdmin u => exact h
  | banUser now u r b =>
      simp only [user_in, applyOp_ban_users]
      exact h
  | unbanUser u => exact h

/-- Presence of a user row survives any suffix of calls. -/
theorem user_in_foldl (ops : List Op) (db : DB) (uid : Int)
    (h : user_in db uid = true) :
    user_in (ops.foldl applyOp db) uid = true := by
  induction ops generalizing db with
  | nil => exact h
  | cons op rest ih => exact ih _ (user_in_applyOp db op uid h)

/-- A trace containing an upsert of `uid` ends in a state where `uid` is
present. -/
theorem user_in_of_upsert_mem (ops : List Op) (db : DB) (uid : Int)
    (h : ops.any (Op.upsertsUser uid) = true) :
    user_in (ops.foldl applyOp db) uid = true := by
  induction ops generalizing db with
  | nil => simp at h
  | cons op rest ih =>
      rw [List.any_cons, Bool.or_eq_true] at h
      rcases h with hop | hrest
      · cases op with
        | upsertUser now u un fn ln =>
            simp only [Op.upsertsUser, beq_iff_eq] at hop
            subst hop
            exact user_in_foldl rest _ _
              (by simpa [applyOp] using user_in_upsert now u un fn ln db)
        | saveLookup today ts u cmd q res => simp [Op.upsertsUser] at hop
        | addAdmin now u b => simp [Op.upsertsUser] at hop
        | removeAdmin u => simp [Op.upsertsUser] at hop
        | banUser now u r b => simp [Op.upsertsUser] at hop
        | unbanUser u => simp [Op.upsertsUser] at hop
      · exact ih _ hrest

/-- Peeling the last call off the trace guard. -/
theorem lookups_preceded_snoc (seen l : List Op) (op : Op) :
    lookups_preceded_by_upsert seen (l ++ [op]) =
      (lookups_preceded_by_upsert seen l && Op.guardOk (seen ++ l) op) := by
  induction l generalizing seen with
  | nil => simp [lookups_preceded_by_upsert]
  | cons o t ih =>
      simp only [List.cons_append, List.append_eq, lookups_preceded_by_upsert, ih,
        List.append_assoc, List.singleton_append, List.nil_append, Bool.and_assoc]

/-- Appending one row changes the per-user row count by one exactly for the
row's own `user_id`. -/
theorem count_for_snoc (l : List LookupRow) (r : LookupRow) (uid : Int) :
    count_for (l ++ [r]) uid =
      count_for l uid + (if r.user_id == uid then 1 else 0) := by
  simp only [count_for, List.filter_append]
  by_cases h : (r.user_id == uid) = true <;>
    simp [List.filter_cons, h]

/-- `lookups_counted` only looks at the `users` and `lookups` tables. -/
theorem lookups_counted_congr (db db2 : DB) (hu : db2.users = db.users)
    (hl : db2.lookups = db.lookups) (h : lookups_counted db) :
    lookups_counted db2 := by
  unfold lookups_counted user_in count_lookups at *
  rw [hu, hl]
  exact h

/-- One call preserves the counting invariant, provided a `save_lookup`'s
`user_id` is already present. -/
theorem lookups_counted_applyOp (db : DB) (op : Op) (h : lookups_counted db)
    (hg : ∀ today ts uid cmd q res,
      op = Op.saveLookup today ts uid cmd q res → user_in db uid = true) :
    lookups_counted (applyOp db op) := by
  obtain ⟨h1, h2⟩ := h
  cases op with
  | upsertUser now uid un fn ln =>
      simp only [applyOp]
      unfold update_user
      split
    
      · next hc =>
          constructor
          · intro u hu
            rw [List.mem_map] at hu
            obtain ⟨v, hv, rfl⟩ := hu
            show (upd_names now uid un fn ln v).total_lookups =
              (count_for db.lookups (upd_names now uid un fn ln v).user_id : Int)
            rw [upd_names_total, upd_names_user_id]
            exact h1 v hv
          · intro w hw
            apply h2
            simp only [user_in] at hw ⊢
            rwa [any_user_id_map _ (upd_names_user_id now uid un fn ln)] at hw
      · next hc =>
          constructor
          · intro u hu
            rw [List.mem_append] at hu
            rcases hu with hu | hu
            · show u.total_lookups = (count_for db.lookups u.user_id : Int)
              exact h1 u hu
            · rw [List.mem_singleton] at hu
              subst hu
              show (0 : Int) = (count_lookups db uid : Int)
              have : user_in db uid = false := by
                simpa [user_in] using hc
              rw [h2 uid this]
              rfl
          · intro w hw
            apply h2
            simp only [user_in, List.any_append] at hw ⊢
            rcases Bool.or_eq_false_iff.mp hw with ⟨hw1, _⟩
            exact hw1
  | saveLookup today ts uid cmd q res =>
      have huid : user_in db uid = true := hg today ts uid cmd q res rfl
      simp only [applyOp]
      unfold save_lookup
      constructor
      · intro u hu
        rw [List.mem_map] at hu
        obtain ⟨v, hv, rfl⟩ := hu
        show (inc_total uid v).total_lookups =
          (count_for (db.lookups ++
              [⟨db.next_id, uid, cmd, q, Json.dumps res, ts⟩])
            (inc_total uid v).user_id : Int)
        rw [inc_total_user_id, count_for_snoc]
        by_cases hvu : (v.user_id == uid) = true
        · have hvu' : v.user_id = uid := by simpa using hvu
          have : ((⟨db.next_id, uid, cmd, q, Json.dumps res, ts⟩ :
              LookupRow).user_id == v.user_id) = true := by
            simp [hvu']
          rw [this]
          simp only [inc_total, hvu, if_true]
          have := h1 v hv
          simp only [count_lookups] at this
          push_cast
          omega
        · have hvu' : ¬ v.user_id = uid := by simpa using hvu
          have : ((⟨db.next_id, uid, cmd, q, Json.dumps res, ts⟩ :
              LookupRow).user_id == v.user_id) = false := by
            simp
            exact fun hh => absurd hh.symm hvu'
          rw [this]
          simp only [inc_total, hvu, if_false]
          have := h1 v hv
          simp only [count_lookups] at this
          push_cast
          omega
      · intro w hw
        simp only [user_in] at hw
        rw [any_user_id_map _ (inc_total_user_id uid)] at hw
        have hw0 : user_in db w = false := hw
        have hww : count_for db.lookups w = 0 := h2 w hw0
        show count_for (db.lookups ++
            [⟨db.next_id, uid, cmd, q, Json.dumps res, ts⟩]) w = 0
        rw [count_for_snoc]
        have hne : ((⟨db.next_id, uid, cmd, q, Json.dumps res, ts⟩ :
            LookupRow).user_id == w) = false := by
          simp only [beq_eq_false_iff_ne, ne_eq]
          intro hh
          rw [hh] at huid
          rw [huid] at hw0
          cases hw0
        rw [hne]
        simpa using hww
  | addAdmin now uid b =>
      refine lookups_counted_congr db _ ?_ ?_ ⟨h1, h2⟩ <;>
        · simp only [applyOp]
          unfold add_admin
          split <;> rfl
  | removeAdmin uid =>
      exact lookups_counted_congr db _ rfl rfl ⟨h1, h2⟩
  | banUser now uid r b =>
      exact lookups_counted_congr db _ (applyOp_ban_users db now uid r b)
        (applyOp_ban_lookups db now uid r b) ⟨h1, h2⟩
  | unbanUser uid =>
      exact lookups_counted_congr db _ rfl rfl ⟨h1, h2⟩

/-- The counting invariant holds after any well-guarded trace from the empty
database. -/
theorem lookups_counted_run (ops : List Op)
    (h : lookups_preceded_by_upsert [] ops = true) :
    lookups_counted (run ops) := by
  induction ops using List.reverseRecOn with
  | nil =>
      constructor
      · intro u hu
        cases hu
      · intro uid _
        rfl
  | append_singleton l op ih =>
      rw [lookups_preceded_snoc, Bool.and_eq_true] at h
      obtain ⟨hl, hop⟩ := h
      rw [List.nil_append] at hop
      have hrun : run (l ++ [op]) = applyOp (run l) op := by
        unfold run
        rw [List.foldl_append]
        rfl
      rw [hrun]
      apply lookups_counted_applyOp (run l) op (ih hl)
      intro today ts uid cmd q res heq
      subst heq
      simp only [Op.guardOk] at hop
      exact user_in_of_upsert_mem l init_db uid hop
-- ===== daily_stats upsert lemmas =====

/-- The daily-stat bump never touches the `date` key. -/
theorem inc_count_date (date cmd : String) (r : DailyRow) :
    (inc_count date cmd r).date = r.date := by
  unfold inc_count; split <;> rfl

/-- The daily-stat bump never touches the `command` key. -/
theorem inc_count_command (date cmd : String) (r : DailyRow) :
    (inc_count date cmd r).command = r.command := by
  unfold inc_count; split <;> rfl

/-- `find?` on the `(date, command)` key passes through a key-preserving map. -/
theorem find?_daily_map (f : DailyRow → DailyRow)
    (hd : ∀ r, (f r).date = r.date) (hc : ∀ r, (f r).command = r.command)
    (l : List DailyRow) (d c : String) :
    (l.map f).find? (fun r => r.date == d && r.command == c) =
      (l.find? (fun r => r.date == d && r.command == c)).map f :=
  find?_map_pred f (fun r => r.date == d && r.command == c)
    (fun a => by simp only [hd, hc]) l

/-- The upsert raises the count of the `(date, command)` key by one, creating
the row at 1 when absent. -/
theorem daily_count_for_bump (date cmd : String) (rows : List DailyRow) :
    daily_count_for (bump_daily date cmd rows) date cmd =
      daily_count_for rows date cmd + 1 := by
  unfold bump_daily
  by_cases hany : (rows.any fun r => r.date == date && r.command == cmd) = true
  · rw [if_pos hany]
    unfold daily_count_for
    rw [find?_daily_map (inc_count date cmd) (inc_count_date date cmd)
      (inc_count_command date cmd) rows date cmd]
    rcases hfind : rows.find? (fun r => r.date == date && r.command == cmd) with _ | r
    · rw [List.find?_eq_none] at hfind
      rw [List.any_eq_true] at hany
      obtain ⟨x, hx, hpx⟩ := hany
      exact absurd hpx (hfind x hx)
    · rw [hfind]
      have hr := List.find?_some hfind
      simp only [Option.map_some]
      show (inc_count date cmd r).count = r.count + 1
      unfold inc_count
      rw [if_pos hr]
  · rw [if_neg hany]
    unfold daily_count_for
    rw [List.find?_append]
    have hnone : rows.find? (fun r => r.date == date && r.command == cmd) = none := by
      rw [List.find?_eq_none]
      intro x hx hpx
      exact hany (List.any_eq_true.mpr ⟨x, hx, hpx⟩)
    rw [hnone, Option.none_or]
    have hp1 : (((⟨date, cmd, 1⟩ : DailyRow).date == date) &&
        ((⟨date, cmd, 1⟩ : DailyRow).command == cmd)) = true := by
      simp
    rw [List.find?_singleton, if_pos hp1]
    show (1 : Int) = 0 + 1
    omega

/-- The upsert leaves every other `(date, command)` key's count unchanged. -/
theorem daily_count_for_bump_ne (date cmd d c : String) (rows : List DailyRow)
    (h : ¬(d = date ∧ c = cmd)) :
    daily_count_for (bump_daily date cmd rows) d c = daily_count_for rows d c := by
  unfold bump_daily
  by_cases hany : (rows.any fun r => r.date == date && r.command == cmd) = true
  · rw [if_pos hany]
    unfold daily_count_for
    rw [find?_daily_map (inc_count date cmd) (inc_count_date date cmd)
      (inc_count_command date cmd) rows d c]
    rcases hfind : rows.find? (fun r => r.date == d && r.command == c) with _ | r
    · rw [hfind]
      rfl
    · rw [hfind]
      have hr := List.find?_some hfind
      rw [Bool.and_eq_true, beq_iff_eq, beq_iff_eq] at hr
      obtain ⟨hrd, hrc⟩ := hr
      have hfalse : ((r.date == date) && (r.command == cmd)) = false := by
        cases hq : ((r.date == date) && (r.command == cmd))
        · rfl
        · rw [Bool.and_eq_true, beq_iff_eq, beq_iff_eq] at hq
          exact absurd ⟨hrd ▸ hq.1, hrc ▸ hq.2⟩ h
      simp only [Option.map_some]
      show (inc_count date cmd r).count = r.count
      unfold inc_count
      rw [if_neg (by rw [hfalse]; exact Bool.false_ne_true)]
  · rw [if_neg hany]
    unfold daily_count_for
    rw [List.find?_append]
    have hone : List.find? (fun r => r.date == d && r.command == c)
        [(⟨date, cmd, 1⟩ : DailyRow)] = none := by
      rw [List.find?_eq_none]
      intro x hx
      rw [List.mem_singleton] at hx
      subst hx
      intro hq
      rw [Bool.and_eq_true, beq_iff_eq, beq_iff_eq] at hq
      exact h ⟨hq.1.symm, hq.2.symm⟩
    rw [hone, Option.or_none]

/-- `find?` on `user_id` passes through a key-preserving map. -/
theorem find?_user_map (f : UserRow → UserRow)
    (hid : ∀ u, (f u).user_id = u.user_id) (l : List UserRow) (w : Int) :
    (l.map f).find? (fun u => u.user_id == w) =
      (l.find? (fun u => u.user_id == w)).map f :=
  find?_map_pred f (fun u => u.user_id == w) (fun a => by simp only [hid]) l

-- ===== claims =====

/-- C1: `save_lookup` on an existing user performs exactly three effects
together: it appends one row to `lookups` with the result serialized by
`json.dumps`, it raises that user's `total_lookups` by exactly 1, and it
raises the `(today, command)` daily counter by 1 (creating it at 1 when
absent); every other user row, every other daily counter and the `admins`
and `banned` tables are untouched. -/
theorem save_lookup_composite_effects (today ts : String) (uid : Int)
    (cmd q : String) (res : Json) (db : DB) (u : UserRow)
    (h : get_user db uid = some u) :
    (save_lookup today ts uid cmd q res db).lookups =
      db.lookups ++ [⟨db.next_id, uid, cmd, q, Json.dumps res, ts⟩] ∧
    get_user (save_lookup today ts uid cmd q res db) uid =
      some { u with total_lookups := u.total_lookups + 1 } ∧
    daily_count (save_lookup today ts uid cmd q res db) today cmd =
      daily_count db today cmd + 1 ∧
    (∀ w : Int, w ≠ uid →
      get_user (save_lookup today ts uid cmd q res db) w = get_user db w) ∧
    (∀ d c : String, ¬(d = today ∧ c = cmd) →
      daily_count (save_lookup today ts uid cmd q res db) d c =
        daily_count db d c) ∧
    (save_lookup today ts uid cmd q res db).admins = db.admins ∧
    (save_lookup today ts uid cmd q res db).banned = db.banned := by
  unfold get_user at h
  refine ⟨rfl, ?_, ?_, ?_, ?_, rfl, rfl⟩
  · show (db.users.map (inc_total uid)).find? (fun v => v.user_id == uid) = _
    rw [find?_user_map (inc_total uid) (inc_total_user_id uid) db.users uid, h]
    have hu := List.find?_some h
    show some (inc_total uid u) =
      some { u with total_lookups := u.total_lookups + 1 }
    unfold inc_total
    rw [if_pos hu]
  · exact daily_count_for_bump today cmd db.daily_stats
  · intro w hw
    show (db.users.map (inc_total uid)).find? (fun v => v.user_id == w) =
      db.users.find? (fun v => v.user_id == w)
    apply find?_map_fix (inc_total uid) (fun v => v.user_id == w)
      (fun a => by simp only [inc_total_user_id])
    intro a ha
    rw [beq_iff_eq] at ha
    unfold inc_total
    rw [if_neg (by rw [ha, beq_iff_eq]; exact hw)]
  · intro d c hdc
    exact daily_count_for_bump_ne today cmd d c db.daily_stats hdc

/-- Concrete users row used by the C1 witness. -/
def c1_row : UserRow := ⟨7, "t0", "t0", 0, some "alice", none, none⟩

/-- Concrete database used by the C1 witness: user 7 upserted once. -/
def c1_db : DB := update_user "t0" 7 (some "alice") none none init_db

/-- C1 witness at a concrete database. -/
theorem save_lookup_composite_effects_witness :
    get_user c1_db 7 = some c1_row ∧
    get_user (save_lookup "2024-05-01" "t1" 7 "phone" "+15550"
        (Json.num 3) c1_db) 7 =
      some { c1_row with total_lookups := c1_row.total_lookups + 1 } :=
  ⟨by decide, (save_lookup_composite_effects "2024-05-01" "t1" 7 "phone" "+15550"
      (Json.num 3) c1_db c1_row (by decide)).2.1⟩

/-- C2: in every state reached from the initialized empty database by a
sequence of the store's mutating calls in which every `user_id` passed to
`save_lookup` was previously upserted via `update_user`, each users row's
`total_lookups` equals the number of `lookups` rows carrying its `user_id`. -/
theorem total_lookups_counts_rows (ops : List Op)
    (h : lookups_preceded_by_upsert [] ops = true) :
    ∀ u ∈ (run ops).users,
      u.total_lookups = (count_lookups (run ops) u.user_id : Int) :=
  (lookups_counted_run ops h).1

/-- Concrete trace used by the C2 witness. -/
def c2_trace : List Op :=
  [Op.upsertUser "t0" 7 (some "alice") none none,
   Op.saveLookup "2024-05-01" "t1" 7 "phone" "+15550" (Json.num 1),
   Op.banUser "t2" 9 "spam" 7,
   Op.saveLookup "2024-05-01" "t3" 7 "email" "a@b.c" Json.null]

/-- C2 witness at a concrete well-guarded trace. -/
theorem total_lookups_counts_rows_witness :
    lookups_preceded_by_upsert [] c2_trace = true ∧
    ∀ u ∈ (run c2_trace).users,
      u.total_lookups = (count_lookups (run c2_trace) u.user_id : Int) :=
  ⟨by decide, total_lookups_counts_rows c2_trace (by decide)⟩

/-- C3: a second upsert of an existing `user_id` overwrites `last_seen`,
`username`, `first_name` and `last_name` with exactly the supplied values
(omitted names stored as null — no merge with prior non-null values), never
raises (the operation is total), and leaves `first_seen` and
`total_lookups` unchanged from the first insert. -/
theorem upsert_existing_overwrites (now2 : String) (uid : Int)
    (un2 fn2 ln2 : Option String) (db : DB) (u : UserRow)
    (h : get_user db uid = some u) :
    get_user (update_user now2 uid un2 fn2 ln2 db) uid =
      some { u with last_seen := now2, username := un2,
                    first_name := fn2, last_name := ln2 } := by
  unfold get_user at h
  have hfu := List.find?_some h
  have hany : (db.users.any fun v => v.user_id == uid) = true := by
    rw [List.any_eq_true]
    exact ⟨u, List.mem_of_find?_eq_some h, hfu⟩
  unfold update_user
  rw [if_pos hany]
  show (db.users.map (upd_names now2 uid un2 fn2 ln2)).find?
    (fun v => v.user_id == uid) = _
  rw [find?_user_map (upd_names now2 uid un2 fn2 ln2)
    (upd_names_user_id now2 uid un2 fn2 ln2) db.users uid, h]
  show some (upd_names now2 uid un2 fn2 ln2 u) =
    some { u with last_seen := now2, username := un2,
                  first_name := fn2, last_name := ln2 }
  unfold upd_names
  rw [if_pos hfu]

/-- Concrete database used by the C3 witness: user 9 upserted once with a
non-null first name. -/
def c3_db : DB := update_user "s0" 9 none (some "Bob") none init_db

/-- C3 witness: the second upsert stores null over the prior non-null first
name and keeps `first_seen`/`total_lookups`. -/
theorem upsert_existing_overwrites_witness :
    get_user c3_db 9 = some ⟨9, "s0", "s0", 0, none, some "Bob", none⟩ ∧
    get_user (update_user "s1" 9 none none none c3_db) 9 =
      some ⟨9, "s0", "s1", 0, none, none, none⟩ :=
  ⟨by decide, upsert_existing_overwrites "s1" 9 none none none c3_db
      ⟨9, "s0", "s0", 0, none, some "Bob", none⟩ (by decide)⟩

/-- C4: banning an already-banned `user_id` raises the engine's uniqueness
(primary-key) violation instead of succeeding or being a no-op, and the
failed call leaves the database — in particular the `banned` table —
unchanged. -/
theorem ban_banned_raises (now : String) (uid : Int) (r : String) (b : Int)
    (db : DB) (h : is_banned db uid = true) :
    ban_user now uid r b db = Except.error SqlError.uniqueViolation ∧
    applyOp db (Op.banUser now uid r b) = db := by
  unfold is_banned at h
  rw [Option.isSome_iff_exists] at h
  obtain ⟨x, hx⟩ := h
  have hmem := List.mem_of_find?_eq_some hx
  have hpx := List.find?_some hx
  have hany : (db.banned.any fun v => v.user_id == uid) = true := by
    rw [List.any_eq_true]
    exact ⟨x, hmem, hpx⟩
  have hball : ban_user now uid r b db = Except.error SqlError.uniqueViolation := by
    unfold ban_user
    rw [if_pos hany]
  refine ⟨hball, ?_⟩
  simp only [applyOp]
  rw [hball]

/-- Concrete database used by the C4 witness: user 5 already banned. -/
def c4_db : DB := { init_db with banned := [⟨5, "spam", 1, "t0"⟩] }

/-- C4 witness at a concrete database. -/
theorem ban_banned_raises_witness :
    is_banned c4_db 5 = true ∧
    ban_user "t1" 5 "again" 2 c4_db = Except.error SqlError.uniqueViolation ∧
    applyOp c4_db (Op.banUser "t1" 5 "again" 2) = c4_db :=
  ⟨by decide, (ban_banned_raises "t1" 5 "again" 2 c4_db (by decide)).1,
    (ban_banned_raises "t1" 5 "again" 2 c4_db (by decide)).2⟩

/-- C5: `add_admin` twice for the same `user_id` never raises (the operation
is total) and leaves exactly one admins row for it; the second call changes
nothing at all, so the row keeps `added_by` and `added_on` from the first
call. -/
theorem add_admin_twice_one_row (t1 t2 : String) (uid b1 b2 : Int) (db : DB)
    (h : count_admin_rows db uid ≤ 1) :
    add_admin t2 uid b2 (add_admin t1 uid b1 db) = add_admin t1 uid b1 db ∧
    count_admin_rows (add_admin t1 uid b1 db) uid = 1 := by
  by_cases hany : (db.admins.any fun a => a.user_id == uid) = true
  · have h1 : add_admin t1 uid b1 db = db := by
      unfold add_admin
      rw [if_pos hany]
    have hpos : 1 ≤ count_admin_rows db uid := by
      rw [List.any_eq_true] at hany
      obtain ⟨x, hx, hpx⟩ := hany
      have hmem : x ∈ db.admins.filter (fun a => a.user_id == uid) :=
        List.mem_filter.mpr ⟨hx, hpx⟩
      exact List.length_pos.mpr (List.ne_nil_of_mem hmem)
    constructor
    · rw [h1]
      unfold add_admin
      rw [if_pos hany]
    · rw [h1]
      omega
  · have h1 : add_admin t1 uid b1 db =
        { db with admins := db.admins ++ [⟨uid, b1, t1⟩] } := by
      unfold add_admin
      rw [if_neg hany]
    have hnil : db.admins.filter (fun a => a.user_id == uid) = [] := by
      rw [List.filter_eq_nil_iff]
      intro a ha hp
      exact hany (List.any_eq_true.mpr ⟨a, ha, hp⟩)
    constructor
    · rw [h1]
      unfold add_admin
      have hany2 : (({ db with admins := db.admins ++ [(⟨uid, b1, t1⟩ : AdminRow)] } : DB).admins.any
          fun a => a.user_id == uid) = true := by
        show ((db.admins ++ [(⟨uid, b1, t1⟩ : AdminRow)]).any fun a => a.user_id == uid) = true
        rw [List.any_append]
        simp
      rw [if_pos hany2]
    · rw [h1]
      show ((db.admins ++ [(⟨uid, b1, t1⟩ : AdminRow)]).filter (fun a => a.user_id == uid)).length = 1
      rw [List.filter_append, hnil]
      simp

/-- C5 witness at the empty database. -/
theorem add_admin_twice_one_row_witness :
    add_admin "t2" 3 2 (add_admin "t1" 3 1 init_db) = add_admin "t1" 3 1 init_db ∧
    count_admin_rows (add_admin "t1" 3 1 init_db) 3 = 1 :=
  add_admin_twice_one_row "t1" "t2" 3 1 2 init_db (by decide)

/-- C6: the relative-date filter of `get_daily_stats` is broken — its only
`?` sits inside the double-quoted token `"-? days"`, so the prepared
statement has zero placeholders while one binding `(days,)` is supplied;
every call therefore raises the driver's binding-count error instead of
returning the trailing-window rows. -/
theorem get_daily_stats_raises (days : Nat) (db : DB) :
    get_daily_stats days db = Except.error SqlError.bindingMismatch := by
  have hzero : count_placeholders get_daily_stats_sql = 0 := by decide
  unfold get_daily_stats
  rw [hzero]
  rfl

/-- C7: `get_stats` returns the four aggregates — row counts of `users`,
`admins` and `banned`, and the sum of `total_lookups` over all user rows,
which is 0 when the `users` table is empty (the SQL `SUM` is `NULL` there
and the `or 0` guard turns it into 0). -/
theorem get_stats_four_aggregates (db : DB) :
    get_stats db =
      { total_users := (db.users.length : Int),
        total_lookups := (db.users.map (fun u => u.total_lookups)).sum,
        total_admins := (db.admins.length : Int),
        total_banned := (db.banned.length : Int) } ∧
    (db.users = [] → (get_stats db).total_lookups = 0) := by
  have hsum : ∀ l : List Int, py_or_zero (sql_sum l) = l.sum := by
    intro l
    unfold sql_sum
    by_cases he : l.isEmpty = true
    · rw [if_pos he]
      rw [List.isEmpty_iff] at he
      subst he
      rfl
    · rw [if_neg he]
      show (if (l.sum == 0) = true then 0 else l.sum) = l.sum
      by_cases hz : (l.sum == 0) = true
      · rw [if_pos hz]
        rw [beq_iff_eq] at hz
        exact hz.symm
      · rw [if_neg hz]
  constructor
  · unfold get_stats
    rw [hsum]
  · intro he
    unfold get_stats
    rw [hsum]
    show (db.users.map (fun u => u.total_lookups)).sum = 0
    rw [he]
    rfl

/-- C7 witness at the empty database. -/
theorem get_stats_four_aggregates_witness :
    (get_stats init_db).total_lookups = 0 :=
  (get_stats_four_aggregates init_db).2 rfl

/-- C8: `get_leaderboard` returns at most `limit` `(user_id, total_lookups)`
pairs ordered by `total_lookups` descending.  The statement names no
tie-break column; the embedding's `ORDER BY` is a deterministic stable merge
sort of the table, so rows with equal counters come back in one fixed,
consistent order on every call. -/
theorem get_leaderboard_bounded_sorted (limit : Nat) (db : DB) :
    (get_leaderboard limit db).length ≤ limit ∧
    List.Pairwise (fun a b : Int × Int => b.2 ≤ a.2) (get_leaderboard limit db) := by
  constructor
  · unfold get_leaderboard
    rw [List.length_map, List.length_take]
    exact inf_le_left
  · unfold get_leaderboard
    rw [List.pairwise_map]
    apply List.Pairwise.sublist (List.take_sublist _ _)
    have hs := @List.sorted_mergeSort UserRow
      (fun a b : UserRow => decide (b.total_lookups ≤ a.total_lookups))
      (fun a b c hab hbc => by
        rw [decide_eq_true_eq] at hab hbc ⊢
        exact le_trans hbc hab)
      (fun a b => by
        simp only [Bool.or_eq_true, decide_eq_true_eq]
        exact le_total b.total_lookups a.total_lookups)
      db.users
    exact hs.imp (fun hab => of_decide_eq_true hab)

/-- C9: `save_lookup` for a `user_id` with no users row does not raise; it
still appends the lookups row and bumps the `(today, command)` daily counter,
while the whole `users` table is left unchanged — no user row is created and
no `total_lookups` counter is incremented anywhere (the `UPDATE` matches no
row); `admins` and `banned` are untouched as well. -/
theorem save_lookup_missing_user (today ts : String) (uid : Int)
    (cmd q : String) (res : Json) (db : DB)
    (h : user_in db uid = false) :
    (save_lookup today ts uid cmd q res db).users = db.users ∧
    (save_lookup today ts uid cmd q res db).lookups =
      db.lookups ++ [⟨db.next_id, uid, cmd, q, Json.dumps res, ts⟩] ∧
    daily_count (save_lookup today ts uid cmd q res db) today cmd =
      daily_count db today cmd + 1 ∧
    (save_lookup today ts uid cmd q res db).admins = db.admins ∧
    (save_lookup today ts uid cmd q res db).banned = db.banned := by
  refine ⟨?_, rfl, daily_count_for_bump today cmd db.daily_stats, rfl, rfl⟩
  show db.users.map (inc_total uid) = db.users
  apply map_id_of_fix
  intro a ha
  have hbe : (a.user_id == uid) = false := by
    cases hq : (a.user_id == uid)
    · rfl
    · exfalso
      have huin : user_in db uid = true := by
        rw [user_in, List.any_eq_true]
        exact ⟨a, ha, hq⟩
      rw [huin] at h
      cases h
  unfold inc_total
  rw [if_neg (by rw [hbe]; exact Bool.false_ne_true)]

/-- C9 witness at the empty database. -/
theorem save_lookup_missing_user_witness :
    user_in init_db 5 = false ∧
    (save_lookup "2024-05-01" "t1" 5 "phone" "q" Json.null init_db).users =
      init_db.users :=
  ⟨by decide, (save_lookup_missing_user "2024-05-01" "t1" 5 "phone" "q"
      Json.null init_db (by decide)).1⟩

/-- C10: after `unban_user`, re-running `ban_user` for the same `user_id`
with any reason and `banned_by` succeeds without error and leaves the user
banned with exactly the new reason and `banned_by` values. -/
theorem unban_then_ban_reapplies (now2 : String) (uid : Int) (r : String)
    (b : Int) (db : DB) (h : is_banned db uid = true) :
    ∃ db2 : DB,
      ban_user now2 uid r b (unban_user uid db) = Except.ok db2 ∧
      is_banned db2 uid = true ∧
      db2.banned.find? (fun x => x.user_id == uid) = some ⟨uid, r, b, now2⟩ := by
  have hnone : (unban_user uid db).banned.find? (fun x => x.user_id == uid) = none := by
    show (db.banned.filter (fun x => x.user_id != uid)).find?
      (fun x => x.user_id == uid) = none
    rw [List.find?_eq_none]
    intro x hx hq
    rw [List.mem_filter] at hx
    rw [beq_iff_eq] at hq
    have hne := hx.2
    rw [bne_iff_ne] at hne
    exact hne hq
  have hany : ((unban_user uid db).banned.any fun x => x.user_id == uid) = false := by
    cases hq : ((unban_user uid db).banned.any fun x => x.user_id == uid)
    · rfl
    · rw [List.any_eq_true] at hq
      obtain ⟨x, hx, hpx⟩ := hq
      rw [List.find?_eq_none] at hnone
      exact absurd hpx (hnone x hx)
  refine ⟨{ unban_user uid db with
      banned := (unban_user uid db).banned ++ [⟨uid, r, b, now2⟩] }, ?_, ?_, ?_⟩
  · unfold ban_user
    rw [if_neg (by rw [hany]; exact Bool.false_ne_true)]
  · unfold is_banned
    show (((unban_user uid db).banned ++ [(⟨uid, r, b, now2⟩ : BanRow)]).find?
      (fun x => x.user_id == uid)).isSome = true
    rw [List.find?_append, hnone, Option.none_or, List.find?_singleton,
      if_pos (by simp)]
    rfl
  · show ((unban_user uid db).banned ++ [(⟨uid, r, b, now2⟩ : BanRow)]).find?
      (fun x => x.user_id == uid) = some ⟨uid, r, b, now2⟩
    rw [List.find?_append, hnone, Option.none_or, List.find?_singleton,
      if_pos (by simp)]

/-- Concrete database used by the C10 witness: user 8 banned with an old
reason. -/
def c10_db : DB := { init_db with banned := [⟨8, "old", 1, "t0"⟩] }

/-- C10 witness at a concrete database. -/
theorem unban_then_ban_reapplies_witness :
    is_banned c10_db 8 = true ∧
    ∃ db2 : DB,
      ban_user "t2" 8 "new-reason" 2 (unban_user 8 c10_db) = Except.ok db2 ∧
      is_banned db2 8 = true ∧
      db2.banned.find? (fun x => x.user_id == 8) = some ⟨8, "new-reason", 2, "t2"⟩ :=
  ⟨by decide, unban_then_ban_reapplies "t2" 8 "new-reason" 2 c10_db (by decide)⟩
